import Mathlib

set_option autoImplicit false
set_option linter.unusedVariables false

/-!
Shallow embedding of the vatsim-data-event-processor core: the flight-plan
tracker (flight-plans listener module), the Redis-backed TTL store operations
(src/redis.ts), the airborne state machine (determineStateChange), and the
controller tracker (src/controllers.ts).

Modelling conventions:
- The Redis store is an association list from keys to stored flight-plan
  records, in key-creation order; this order models the (unspecified)
  enumeration order of the KEYS command for pattern scans.
- TTL sentinel keys (`ttl:` ++ key) hold no record data and are never matched
  by the flight-plan pattern scans (they do not start with a cid digit), so
  they are not carried in the store; TTL arming/refresh has no observable
  effect on the modelled state and events.
- All `Date.now()` calls inside the processing of a single message are
  modelled as one instant `now : Nat`.
- JavaScript numbers used for groundspeed/altitude/position are modelled as
  `Int`; only order comparisons are performed on them.
- Plan fields are diffed by stringified equality (`String(a) !== String(b)`),
  so the string-typed fields are modelled as `String` and `revision_id` as
  `Nat` (decimal stringification is injective on Nat).
-/

/-- FlightPlan: the 16-field plan body carried by pilots and prefiles. -/
structure FlightPlan where
  flight_rules : String
  aircraft : String
  aircraft_faa : String
  aircraft_short : String
  departure : String
  arrival : String
  alternate : String
  cruise_tas : String
  altitude : String
  deptime : String
  enroute_time : String
  fuel_time : String
  remarks : String
  route : String
  revision_id : Nat
  assigned_transponder : String
deriving DecidableEq

/-- Pilot: a connected pilot with position and velocity data. -/
structure Pilot where
  cid : Nat
  name : String
  callsign : String
  server : String
  pilot_rating : Int
  military_rating : Int
  latitude : Int
  longitude : Int
  altitude : Int
  groundspeed : Int
  transponder : String
  heading : Int
  qnh_i_hg : Int
  qnh_mb : Int
  flight_plan : FlightPlan
  logon_time : String
  last_updated : String
deriving DecidableEq

/-- Prefile: a flight plan filed without a connection (no position data). -/
structure Prefile where
  cid : Nat
  name : String
  callsign : String
  flight_plan : FlightPlan
  last_updated : String
deriving DecidableEq

/-- PilotOrPrefile: the union type consumed by processRawFlightPlan; the
source distinguishes the two cases by the check `"latitude" in pilot`. -/
inductive PilotOrPrefile where
  | pilot (p : Pilot)
  | prefile (p : Prefile)
deriving DecidableEq

def PilotOrPrefile.cid : PilotOrPrefile → Nat
  | .pilot p => p.cid
  | .prefile p => p.cid

def PilotOrPrefile.callsign : PilotOrPrefile → String
  | .pilot p => p.callsign
  | .prefile p => p.callsign

def PilotOrPrefile.flight_plan : PilotOrPrefile → FlightPlan
  | .pilot p => p.flight_plan
  | .prefile p => p.flight_plan

/-- FlightPlanState: the six lifecycle states of a tracked flight plan. -/
inductive FlightPlanState where
  | filed
  | departing
  | enroute
  | approaching
  | arrived
  | cancelled
deriving DecidableEq

/-- validStateTransitions: the allowed-transition table of the source. -/
def validStateTransitions : FlightPlanState → List FlightPlanState
  | .filed => [.departing, .enroute, .cancelled]
  | .departing => [.enroute, .cancelled]
  | .enroute => [.approaching, .arrived, .cancelled]
  | .approaching => [.arrived, .cancelled]
  | .arrived => []
  | .cancelled => []

/-- isValidStateTransition: membership in the allowed-transition table. -/
def isValidStateTransition (currentState newState : FlightPlanState) : Bool :=
  decide (newState ∈ validStateTransitions currentState)

def GROUND_SPEED_THRESHOLD_TAXI : Int := 30

def GROUND_SPEED_THRESHOLD_TAKEOFF : Int := 60

def GROUND_SPEED_THRESHOLD_LANDING : Int := 60

/-- ALTITUDE_THRESHOLD_GROUND: declared in the source but never consulted by
the transition function. -/
def ALTITUDE_THRESHOLD_GROUND : Int := 100

/-- ALTITUDE_THRESHOLD_CLIMBING: declared in the source but never consulted. -/
def ALTITUDE_THRESHOLD_CLIMBING : Int := 1000

/-- ALTITUDE_THRESHOLD_DESCENDING: declared in the source but never consulted. -/
def ALTITUDE_THRESHOLD_DESCENDING : Int := 1000

/-- StateChangeResult: the `{ newState, reason }` object returned by
determineStateChange. -/
structure StateChangeResult where
  newState : FlightPlanState
  reason : String
deriving DecidableEq

/-- determineStateChange: the airborne state machine, translated clause by
clause from the source switch statement. `previousAltitude` is accepted but
never consulted; only the ground speed drives transitions. -/
def determineStateChange (currentState : Option FlightPlanState) (pilot : Pilot)
    (previousAltitude : Option Int) : Option StateChangeResult :=
  match currentState.getD .filed with
  | .arrived => none
  | .cancelled => none
  | .filed =>
    if pilot.groundspeed > GROUND_SPEED_THRESHOLD_TAKEOFF then
      some ⟨.enroute, "already_airborne"⟩
    else if pilot.groundspeed < GROUND_SPEED_THRESHOLD_TAXI then
      some ⟨.departing, "pilot_connected_at_gate"⟩
    else none
  | .departing =>
    if pilot.groundspeed > GROUND_SPEED_THRESHOLD_TAKEOFF then
      some ⟨.enroute, "ground_speed_above_takeoff_threshold"⟩
    else none
  | .enroute =>
    if pilot.groundspeed < GROUND_SPEED_THRESHOLD_TAXI then
      some ⟨.arrived, "already_landed"⟩
    else if pilot.groundspeed < GROUND_SPEED_THRESHOLD_LANDING then
      some ⟨.approaching, "slowing_for_approach"⟩
    else none
  | .approaching =>
    if pilot.groundspeed < GROUND_SPEED_THRESHOLD_TAXI then
      some ⟨.arrived, "landed_and_taxiing"⟩
    else none

/-- stateChangeTableSpec: the transition table exactly as worded in the spec
(section 4.3) and claim C3: a function of the current state (defaulting to
filed when absent) and the ground speed alone, conditions tried in the listed
order with the first match firing. Written from the claim, to be compared
with `determineStateChange`, which is written from the source. -/
def stateChangeTableSpec (currentState : Option FlightPlanState) (gs : Int) :
    Option StateChangeResult :=
  match currentState.getD .filed with
  | .filed =>
    if gs > 60 then some ⟨.enroute, "already_airborne"⟩
    else if gs < 30 then some ⟨.departing, "pilot_connected_at_gate"⟩
    else none
  | .departing =>
    if gs > 60 then some ⟨.enroute, "ground_speed_above_takeoff_threshold"⟩
    else none
  | .enroute =>
    if gs < 30 then some ⟨.arrived, "already_landed"⟩
    else if gs < 60 then some ⟨.approaching, "slowing_for_approach"⟩
    else none
  | .approaching =>
    if gs < 30 then some ⟨.arrived, "landed_and_taxiing"⟩
    else none
  | .arrived => none
  | .cancelled => none

/-- PilotId: the `{ cid, callsign }` pair carried on records and events. -/
structure PilotId where
  cid : Nat
  callsign : String
deriving DecidableEq

/-- PilotOrPrefile.pilotId: the `{ cid: pilot.cid, callsign: pilot.callsign }`
object built at every use site. -/
def PilotOrPrefile.pilotId (p : PilotOrPrefile) : PilotId :=
  ⟨p.cid, p.callsign⟩

/-- RedisFlightPlan: the stored record shape. -/
structure RedisFlightPlan where
  timestamp : Nat
  pilot : PilotId
  flightPlan : FlightPlan
  state : FlightPlanState
  lastStateChange : Nat
  previousAltitude : Option Int
deriving DecidableEq

/-- FPEventType: the four flight-plan event kinds. -/
inductive FPEventType where
  | file
  | update
  | expire
  | state_change
deriving DecidableEq

/-- StateInfo: the `state` payload of a state_change event. -/
structure StateInfo where
  previous : FlightPlanState
  current : FlightPlanState
  reason : String
deriving DecidableEq

/-- Position: the position payload attached to state_change events for
connected pilots. -/
structure Position where
  latitude : Int
  longitude : Int
  altitude : Int
  groundspeed : Int
  heading : Int
deriving DecidableEq

/-- FPEvent: the flight-plan event envelope published to
events.flight_plan.<kind>. -/
structure FPEvent where
  event : FPEventType
  pilot : PilotId
  flight_plan : FlightPlan
  timestamp : Nat
  state : Option StateInfo
  position : Option Position
deriving DecidableEq

/-- Store: the Redis keyspace holding flight-plan records, as an association
list in key-creation order (modelling the enumeration order of KEYS). -/
abbrev Store := List (String × RedisFlightPlan)

/-- strStartsWith p s: `s.startsWith(p)` / the glob pattern `p ++ "*"`. -/
def strStartsWith (p s : String) : Bool :=
  List.isPrefixOf p.data s.data

/-- getFlightPlan: redisService.getFlightPlan (first binding wins; keys are
unique in an actual Redis keyspace). -/
def getFlightPlan : Store → String → Option RedisFlightPlan
  | [], _ => none
  | (k, v) :: rest, key => if k = key then some v else getFlightPlan rest key

/-- setFlightPlan: redisService.setFlightPlan — overwrite the value under the
key, or create the binding (the TTL sentinel written alongside it is not
carried in the model). -/
def setFlightPlan : Store → String → RedisFlightPlan → Store
  | [], key, v => [(key, v)]
  | (k, w) :: rest, key, v =>
    if k = key then (key, v) :: rest else (k, w) :: setFlightPlan rest key v

/-- deleteFlightPlan: redisService.deleteFlightPlan — remove the data key
(and its TTL sentinel, not carried in the model). -/
def deleteFlightPlan (s : Store) (key : String) : Store :=
  s.filter fun kv => decide (kv.1 ≠ key)

/-- findKeysByPattern: redisService.findKeysByPattern with the pattern
`pfx ++ "*"` — all keys of the store beginning with `pfx`. -/
def findKeysByPattern (pfx : String) (s : Store) : List String :=
  (s.map Prod.fst).filter fun k => strStartsWith pfx k

/-- baseKeyOf: the identity key `cid + "-" + callsign`. -/
def baseKeyOf (p : PilotOrPrefile) : String :=
  toString p.cid ++ "-" ++ p.callsign

/-- detectFlightPlanChanges: field-by-field stringified comparison of the two
plans. The null-input guard of the source is unreachable under the declared
record types (both arguments are always present) and is dropped. -/
def detectFlightPlanChanges (original updated : FlightPlan) : Bool :=
  decide (original.flight_rules ≠ updated.flight_rules) ||
  decide (original.aircraft ≠ updated.aircraft) ||
  decide (original.aircraft_faa ≠ updated.aircraft_faa) ||
  decide (original.aircraft_short ≠ updated.aircraft_short) ||
  decide (original.departure ≠ updated.departure) ||
  decide (original.arrival ≠ updated.arrival) ||
  decide (original.alternate ≠ updated.alternate) ||
  decide (original.cruise_tas ≠ updated.cruise_tas) ||
  decide (original.altitude ≠ updated.altitude) ||
  decide (original.deptime ≠ updated.deptime) ||
  decide (original.enroute_time ≠ updated.enroute_time) ||
  decide (original.fuel_time ≠ updated.fuel_time) ||
  decide (original.remarks ≠ updated.remarks) ||
  decide (original.route ≠ updated.route) ||
  decide (original.revision_id ≠ updated.revision_id) ||
  decide (original.assigned_transponder ≠ updated.assigned_transponder)

/-- positionOf: the `position` payload built by updateFlightPlanState — the
pilot's position when connected, absent for prefiles. -/
def positionOf : PilotOrPrefile → Option Position
  | .pilot p => some ⟨p.latitude, p.longitude, p.altitude, p.groundspeed, p.heading⟩
  | .prefile _ => none

/-- initialPreviousAltitude: the conditional expression
`"latitude" in pilot ? pilot.altitude : undefined` used when a fresh record
is created. -/
def initialPreviousAltitude : PilotOrPrefile → Option Int
  | .pilot p => some p.altitude
  | .prefile _ => none

/-- updateFlightPlanState: validate the proposed transition against the
allowed-transition table; when valid, overwrite the record with the new state
and publish a state_change event; when invalid, drop silently. The source's
`currentData.state || "filed"` fallback is the identity under the declared
record type (state is always present). -/
def updateFlightPlanState (key : String) (currentData : RedisFlightPlan)
    (newState : FlightPlanState) (reason : String) (pilot : PilotOrPrefile)
    (now : Nat) (s : Store) : List FPEvent × Store :=
  let currentState := currentData.state
  if isValidStateTransition currentState newState then
    ([{ event := .state_change, pilot := pilot.pilotId,
        flight_plan := currentData.flightPlan, timestamp := now,
        state := some ⟨currentState, newState, reason⟩,
        position := positionOf pilot }],
      setFlightPlan s key
        { currentData with state := newState, lastStateChange := now, timestamp := now })
  else ([], s)

/-- mkExpireEvent: the expire event envelope for a stored record. -/
def mkExpireEvent (d : RedisFlightPlan) (now : Nat) : FPEvent :=
  { event := .expire, pilot := d.pilot, flight_plan := d.flightPlan,
    timestamp := now, state := none, position := none }

/-- expireExisting: the no-match loop of processRawFlightPlan — for every
scanned key still holding a record, publish expire and delete it. -/
def expireExisting : List String → Nat → Store → List FPEvent × Store
  | [], _, s => ([], s)
  | k :: rest, now, s =>
    match getFlightPlan s k with
    | some d =>
      let r := expireExisting rest now (deleteFlightPlan s k)
      (mkExpireEvent d now :: r.1, r.2)
    | none => expireExisting rest now s

/-- findMatch: the first scanned key whose stored record still exists and
whose stored departure equals the incoming departure (the source loop with
its break). -/
def findMatch : List String → Store → String → Option (String × RedisFlightPlan)
  | [], _, _ => none
  | k :: rest, s, dep =>
    match getFlightPlan s k with
    | some d => if d.flightPlan.departure = dep then some (k, d) else findMatch rest s dep
    | none => findMatch rest s dep

/-- processMatch: the matched-record branch of processRawFlightPlan: plan
diff and update event, then the airborne state machine for connected pilots
(state write or previous-altitude write; both spread the record read before
the update write), then TTL refresh (no modelled effect). -/
def processMatch (pl : PilotOrPrefile) (key : String) (data : RedisFlightPlan)
    (now : Nat) (s : Store) : List FPEvent × Store :=
  let fp := pl.flight_plan
  let upd :=
    if detectFlightPlanChanges data.flightPlan fp then
      ([({ event := .update, pilot := pl.pilotId, flight_plan := fp,
           timestamp := now, state := none, position := none } : FPEvent)],
       setFlightPlan s key
         { timestamp := now, pilot := pl.pilotId, flightPlan := fp,
           state := data.state, lastStateChange := data.lastStateChange,
           previousAltitude := data.previousAltitude })
    else ([], s)
  match pl with
  | .pilot p =>
    match determineStateChange (some data.state) p data.previousAltitude with
    | some sc =>
      let r := updateFlightPlanState key data sc.newState sc.reason (.pilot p) now upd.2
      (upd.1 ++ r.1, r.2)
    | none =>
      (upd.1,
       setFlightPlan upd.2 key
         { data with previousAltitude := some p.altitude, timestamp := now })
  | .prefile _ => upd

/-- processRawFlightPlan: one ingest of a pilot or prefile message — scan for
this identity's keys, service a matching record in place, or expire all
scanned records and file a fresh one. -/
def processRawFlightPlan (pl : PilotOrPrefile) (now : Nat) (s : Store) :
    List FPEvent × Store :=
  let baseKey := baseKeyOf pl
  let fp := pl.flight_plan
  let existingKeys := findKeysByPattern baseKey s
  match findMatch existingKeys s fp.departure with
  | some (key, data) => processMatch pl key data now s
  | none =>
    let r := expireExisting existingKeys now s
    let key := baseKey ++ "-" ++ fp.departure
    let newRecord : RedisFlightPlan :=
      { timestamp := now, pilot := pl.pilotId, flightPlan := fp,
        state := .filed, lastStateChange := now,
        previousAltitude := initialPreviousAltitude pl }
    (r.1 ++ [{ event := .file, pilot := pl.pilotId, flight_plan := fp,
               timestamp := now, state := none, position := none }],
     setFlightPlan r.2 key newRecord)

/-- mkExpiredStateChangeEvent: the cancellation state_change published when a
record's TTL sentinel fires. -/
def mkExpiredStateChangeEvent (d : RedisFlightPlan) (now : Nat) : FPEvent :=
  { event := .state_change, pilot := d.pilot, flight_plan := d.flightPlan,
    timestamp := now,
    state := some ⟨d.state, .cancelled, "flight_plan_expired"⟩,
    position := none }

/-- onExpire: the composition of redisService.subscribeToExpiration's message
handler with the expiry callback registered by addFlightPlanListener: ignore
messages without the `ttl:` sentinel marker, strip the marker, and when the
data key still holds a record publish the cancellation state_change followed
by the expire event and delete the data key; when the data is gone, do
nothing. -/
def onExpire (message : String) (now : Nat) (s : Store) : List FPEvent × Store :=
  if strStartsWith "ttl:" message then
    let flightPlanKey := String.mk (message.data.drop 4)
    match getFlightPlan s flightPlanKey with
    | some d =>
      ([mkExpiredStateChangeEvent d now, mkExpireEvent d now],
       deleteFlightPlan s flightPlanKey)
    | none => ([], s)
  else ([], s)

/-- Controller: the controller snapshot record. -/
structure Controller where
  cid : Nat
  name : String
  callsign : String
  frequency : String
  facility : Int
  rating : Int
  server : String
  visual_range : Int
  text_atis : List String
  last_updated : String
  logon_time : String
deriving DecidableEq

/-- ControllerCacheEntry: a CONTROLLER_CACHE slot `{ timestamp, value }`. -/
structure ControllerCacheEntry where
  timestamp : Nat
  value : Controller
deriving DecidableEq

/-- ControllerState: the module-level mutable state of src/controllers.ts —
the cache, the batch counter, and the last batch id. -/
structure ControllerState where
  cache : List (String × ControllerCacheEntry)
  batchCount : Nat
  lastBatchId : Option String
deriving DecidableEq

/-- ControllerEvent: the controller event envelope. -/
structure ControllerEvent where
  event : String
  data : Controller
  timestamp : Nat
deriving DecidableEq

def MINIMUM_BATCHES_FOR_REPORTING : Nat := 2

/-- cacheLookup: CONTROLLER_CACHE[key]. -/
def cacheLookup : List (String × ControllerCacheEntry) → String → Option ControllerCacheEntry
  | [], _ => none
  | (k, v) :: rest, key => if k = key then some v else cacheLookup rest key

/-- cacheSet: assignment to CONTROLLER_CACHE[key]. -/
def cacheSet : List (String × ControllerCacheEntry) → String → ControllerCacheEntry →
    List (String × ControllerCacheEntry)
  | [], key, v => [(key, v)]
  | (k, w) :: rest, key, v =>
    if k = key then (key, v) :: rest else (k, w) :: cacheSet rest key v

/-- jsTruthy: JavaScript truthiness of the optional batchId string (undefined
and the empty string are falsy). -/
def jsTruthy : Option String → Bool
  | none => false
  | some b => decide (b ≠ "")

/-- processRawController: one controller message — advance the batch counter
on a fresh batch id, upsert the cache entry, and publish connect only when a
new entry is inserted after the warm-up threshold. The trailing re-check of
the batch id reproduces the source's second increment block (dead in this
sequential model because lastBatchId was already updated above). -/
def processRawController (controller : Controller) (batchId : Option String)
    (now : Nat) (st : ControllerState) : List ControllerEvent × ControllerState :=
  let st :=
    if jsTruthy batchId && decide (batchId ≠ st.lastBatchId) then
      { st with lastBatchId := batchId, batchCount := st.batchCount + 1 }
    else st
  let key := toString controller.cid ++ "-" ++ controller.callsign
  let r :=
    match cacheLookup st.cache key with
    | some entry =>
      (([] : List ControllerEvent),
       { st with cache := cacheSet st.cache key { entry with timestamp := now } })
    | none =>
      let st := { st with cache := cacheSet st.cache key { timestamp := now, value := controller } }
      if st.batchCount > MINIMUM_BATCHES_FOR_REPORTING then
        ([{ event := "connect", data := controller, timestamp := now }], st)
      else ([], st)
  let st2 :=
    if jsTruthy batchId && decide (batchId ≠ r.2.lastBatchId) then
      { r.2 with lastBatchId := batchId, batchCount := r.2.batchCount + 1 }
    else r.2
  (r.1, st2)

/-- processBatch: one upstream snapshot delivered as one message per
controller, all sharing the batch id; an empty batch delivers no messages at
all. -/
def processBatch : List Controller → Option String → Nat → ControllerState →
    List ControllerEvent × ControllerState
  | [], _, _, st => ([], st)
  | c :: rest, bId, now, st =>
    let r := processRawController c bId now st
    let r2 := processBatch rest bId now r.2
    (r.1 ++ r2.1, r2.2)

/-- samplePlan: a concrete IFR plan departing EGLL, used by the concrete
executions below. -/
def samplePlan : FlightPlan :=
  { flight_rules := "I", aircraft := "B738/M", aircraft_faa := "B738",
    aircraft_short := "B738", departure := "EGLL", arrival := "KJFK",
    alternate := "KBOS", cruise_tas := "450", altitude := "35000",
    deptime := "1200", enroute_time := "0700", fuel_time := "0900",
    remarks := "/v/", route := "DCT A", revision_id := 1,
    assigned_transponder := "2000" }

/-- samplePilot: pilot 1 / BAW1, groundspeed 120, with samplePlan. -/
def samplePilot : Pilot :=
  { cid := 1, name := "Alex", callsign := "BAW1", server := "UK",
    pilot_rating := 1, military_rating := 0, latitude := 51, longitude := 0,
    altitude := 8000, groundspeed := 120, transponder := "2000",
    heading := 270, qnh_i_hg := 29, qnh_mb := 1013,
    flight_plan := samplePlan, logon_time := "t0", last_updated := "t1" }

/-- samplePilotSlow: the same pilot later in the flight, groundspeed 20. -/
def samplePilotSlow : Pilot :=
  { samplePilot with groundspeed := 20, altitude := 100 }

/-- samplePrefileOther: prefile for the distinct identity 1 / BAW11 (whose
base key extends BAW1's), departing EGLL with a different route. -/
def samplePrefileOther : Prefile :=
  { cid := 1, name := "Bay", callsign := "BAW11",
    flight_plan := { samplePlan with route := "DCT B", arrival := "KBOS" },
    last_updated := "t1" }

/-- samplePrefileEGKK: prefile for identity 1 / BAW1 departing EGKK. -/
def samplePrefileEGKK : Prefile :=
  { cid := 1, name := "Alex", callsign := "BAW1",
    flight_plan := { samplePlan with departure := "EGKK" },
    last_updated := "t1" }

/-- samplePrefileEGLLv2: prefile for identity 1 / BAW1 departing EGLL with a
route differing from samplePrefileOther's stored plan. -/
def samplePrefileEGLLv2 : Prefile :=
  { cid := 1, name := "Alex", callsign := "BAW1",
    flight_plan := { samplePlan with route := "DCT C" },
    last_updated := "t2" }

/-- sampleController: controller X of the warm-up scenario. -/
def sampleController : Controller :=
  { cid := 9, name := "Casey", callsign := "LON_CTR", frequency := "127.825",
    facility := 6, rating := 7, server := "UK", visual_range := 600,
    text_atis := [], last_updated := "t0", logon_time := "t0" }

/-- sampleRecordFiled: a concrete stored record in state filed. -/
def sampleRecordFiled : RedisFlightPlan :=
  { timestamp := 100, pilot := ⟨1, "BAW1"⟩, flightPlan := samplePlan,
    state := .filed, lastStateChange := 100, previousAltitude := some 50 }

/-- sampleRecordArrived: a concrete stored record in the terminal state
arrived. -/
def sampleRecordArrived : RedisFlightPlan :=
  { sampleRecordFiled with state := .arrived }

/-! Generic lemmas about the association-list store operations. -/

theorem getFlightPlan_setFlightPlan_self (s : Store) (k : String) (v : RedisFlightPlan) :
    getFlightPlan (setFlightPlan s k v) k = some v := by
  induction s with
  | nil => simp [setFlightPlan, getFlightPlan]
  | cons kv rest ih =>
    obtain ⟨k0, w⟩ := kv
    by_cases h : k0 = k <;> simp [setFlightPlan, getFlightPlan, h, ih]

theorem getFlightPlan_setFlightPlan_ne (s : Store) (k k2 : String) (v : RedisFlightPlan)
    (h : k2 ≠ k) : getFlightPlan (setFlightPlan s k v) k2 = getFlightPlan s k2 := by
  induction s with
  | nil => simp [setFlightPlan, getFlightPlan, Ne.symm h]
  | cons kv rest ih =>
    obtain ⟨k0, w⟩ := kv
    by_cases h0 : k0 = k
    · subst h0
      simp [setFlightPlan, getFlightPlan, Ne.symm h]
    · simp only [setFlightPlan, if_neg h0]
      by_cases h2 : k0 = k2
      · simp [getFlightPlan, h2]
      · simp [getFlightPlan, h2, ih]

theorem setFlightPlan_of_getFlightPlan_none (s : Store) (k : String) (v : RedisFlightPlan)
    (h : getFlightPlan s k = none) : setFlightPlan s k v = s ++ [(k, v)] := by
  induction s with
  | nil => simp [setFlightPlan]
  | cons kv rest ih =>
    obtain ⟨k0, w⟩ := kv
    by_cases h0 : k0 = k
    · simp [getFlightPlan, h0] at h
    · simp [setFlightPlan, getFlightPlan, h0] at h ⊢
      exact ih h

theorem map_fst_setFlightPlan (s : Store) (k : String) (v d : RedisFlightPlan)
    (h : getFlightPlan s k = some d) :
    (setFlightPlan s k v).map Prod.fst = s.map Prod.fst := by
  induction s with
  | nil => simp [getFlightPlan] at h
  | cons kv rest ih =>
    obtain ⟨k0, w⟩ := kv
    by_cases h0 : k0 = k
    · simp [setFlightPlan, h0]
    · simp [getFlightPlan, h0] at h
      simp [setFlightPlan, h0, ih h]

theorem getFlightPlan_eq_none_iff (s : Store) (k : String) :
    getFlightPlan s k = none ↔ ∀ kv ∈ s, kv.1 ≠ k := by
  induction s with
  | nil => simp [getFlightPlan]
  | cons kv rest ih =>
    obtain ⟨k0, w⟩ := kv
    by_cases h0 : k0 = k <;> simp [getFlightPlan, h0, ih]

theorem mem_of_getFlightPlan_eq_some (s : Store) (k : String) (d : RedisFlightPlan)
    (h : getFlightPlan s k = some d) : (k, d) ∈ s := by
  induction s with
  | nil => simp [getFlightPlan] at h
  | cons kv rest ih =>
    obtain ⟨k0, w⟩ := kv
    by_cases h0 : k0 = k
    · subst h0
      simp [getFlightPlan] at h
      simp [h]
    · simp [getFlightPlan, h0] at h
      exact List.mem_cons_of_mem _ (ih h)

theorem getFlightPlan_deleteFlightPlan_self (s : Store) (k : String) :
    getFlightPlan (deleteFlightPlan s k) k = none := by
  rw [getFlightPlan_eq_none_iff]
  intro kv hkv
  have := List.of_mem_filter hkv
  simpa using this

theorem getFlightPlan_deleteFlightPlan_ne (s : Store) (k k2 : String) (h : k2 ≠ k) :
    getFlightPlan (deleteFlightPlan s k) k2 = getFlightPlan s k2 := by
  induction s with
  | nil => rfl
  | cons kv rest ih =>
    obtain ⟨k0, w⟩ := kv
    simp only [deleteFlightPlan, decide_not] at ih ⊢
    by_cases h0 : k0 = k
    · subst h0
      simp [List.filter_cons, getFlightPlan, Ne.symm h, ih]
    · by_cases h2 : k0 = k2
      · subst h2
        simp [List.filter_cons, getFlightPlan, h0]
      · simp [List.filter_cons, getFlightPlan, h0, h2, ih]

theorem mem_findKeysByPattern (pfx k : String) (s : Store) :
    k ∈ findKeysByPattern pfx s ↔ k ∈ s.map Prod.fst ∧ strStartsWith pfx k = true := by
  simp [findKeysByPattern, List.mem_filter]

/-! Lemmas about key strings, pattern scans, match search and the expiry
sweep. -/

theorem isPrefixOf_append (l t : List Char) : l.isPrefixOf (l ++ t) = true := by
  induction l with
  | nil => simp [List.isPrefixOf]
  | cons a as ih => simp [List.isPrefixOf, ih]

theorem strStartsWith_append (a t : String) : strStartsWith a (a ++ t) = true := by
  rw [strStartsWith, String.data_append]
  exact isPrefixOf_append a.data t.data

theorem strStartsWith_append2 (a t u : String) : strStartsWith a (a ++ t ++ u) = true := by
  rw [strStartsWith, String.data_append, String.data_append, List.append_assoc]
  exact isPrefixOf_append _ _

theorem mk_data_drop_ttl (k : String) : String.mk (("ttl:" ++ k).data.drop 4) = k := by
  rw [String.data_append]
  have h4 : (4 : Nat) = "ttl:".data.length := rfl
  rw [h4, List.drop_left]

theorem findMatch_eq_some (keys : List String) (s : Store) (dep : String)
    (k : String) (d : RedisFlightPlan) (h : findMatch keys s dep = some (k, d)) :
    k ∈ keys ∧ getFlightPlan s k = some d ∧ d.flightPlan.departure = dep := by
  induction keys with
  | nil => simp [findMatch] at h
  | cons k0 rest ih =>
    cases h0 : getFlightPlan s k0 with
    | some d0 =>
      by_cases hdep : d0.flightPlan.departure = dep
      · simp only [findMatch, h0, if_pos hdep, Option.some.injEq, Prod.mk.injEq] at h
        obtain ⟨hk, hd⟩ := h
        subst hk
        subst hd
        exact ⟨List.mem_cons_self _ _, h0, hdep⟩
      · simp only [findMatch, h0, if_neg hdep] at h
        obtain ⟨h1, h2, h3⟩ := ih h
        exact ⟨List.mem_cons_of_mem _ h1, h2, h3⟩
    | none =>
      simp only [findMatch, h0] at h
      obtain ⟨h1, h2, h3⟩ := ih h
      exact ⟨List.mem_cons_of_mem _ h1, h2, h3⟩

theorem findMatch_isSome_of_mem (keys : List String) (s : Store) (dep : String)
    (k : String) (v : RedisFlightPlan) (hk : k ∈ keys)
    (hv : getFlightPlan s k = some v) (hdep : v.flightPlan.departure = dep) :
    (findMatch keys s dep).isSome = true := by
  induction keys with
  | nil => simp at hk
  | cons k0 rest ih =>
    cases h0 : getFlightPlan s k0 with
    | some d0 =>
      by_cases hd : d0.flightPlan.departure = dep
      · simp [findMatch, h0, if_pos hd]
      · simp only [findMatch, h0, if_neg hd]
        rcases List.mem_cons.mp hk with hk0 | hk0
        · subst hk0
          rw [hv] at h0
          cases h0
          exact absurd hdep hd
        · exact ih hk0
    | none =>
      simp only [findMatch, h0]
      rcases List.mem_cons.mp hk with hk0 | hk0
      · subst hk0
        rw [hv] at h0
        cases h0
      · exact ih hk0

theorem expireExisting_snd (keys : List String) (now : Nat) (s : Store) :
    (expireExisting keys now s).2 = s.filter fun kv => decide (kv.1 ∉ keys) := by
  induction keys generalizing s with
  | nil => simp [expireExisting]
  | cons k0 rest ih =>
    cases h0 : getFlightPlan s k0 with
    | some d0 =>
      simp only [expireExisting, h0, ih, deleteFlightPlan, List.filter_filter]
      apply List.filter_congr
      intro x hx
      by_cases hxk : x.1 = k0 <;> simp [hxk, List.mem_cons]
    | none =>
      simp only [expireExisting, h0, ih]
      apply List.filter_congr
      intro x hx
      have hne : x.1 ≠ k0 := (getFlightPlan_eq_none_iff s k0).mp h0 x hx
      simp [List.mem_cons, hne]

theorem expireExisting_events_mem (keys : List String) (now : Nat) (s : Store)
    (k : String) (d : RedisFlightPlan) (hk : k ∈ keys)
    (hd : getFlightPlan s k = some d) :
    mkExpireEvent d now ∈ (expireExisting keys now s).1 := by
  induction keys generalizing s with
  | nil => simp at hk
  | cons k0 rest ih =>
    cases h0 : getFlightPlan s k0 with
    | some d0 =>
      simp only [expireExisting, h0]
      rcases List.mem_cons.mp hk with hk0 | hk0
      · subst hk0
        rw [hd] at h0
        cases h0
        exact List.mem_cons_self _ _
      · by_cases hkk : k = k0
        · subst hkk
          rw [hd] at h0
          cases h0
          exact List.mem_cons_self _ _
        · refine List.mem_cons_of_mem _ (ih _ hk0 ?_)
          rw [getFlightPlan_deleteFlightPlan_ne s k0 k hkk]
          exact hd
    | none =>
      simp only [expireExisting, h0]
      rcases List.mem_cons.mp hk with hk0 | hk0
      · subst hk0
        rw [hd] at h0
        cases h0
      · exact ih _ hk0 hd

theorem expireExisting_events_are_expire (keys : List String) (now : Nat) (s : Store)
    (e : FPEvent) (he : e ∈ (expireExisting keys now s).1) :
    e.event = .expire ∧ e.state = none := by
  induction keys generalizing s with
  | nil => simp [expireExisting] at he
  | cons k0 rest ih =>
    cases h0 : getFlightPlan s k0 with
    | some d0 =>
      simp only [expireExisting, h0, List.mem_cons] at he
      rcases he with he | he
      · subst he
        exact ⟨rfl, rfl⟩
      · exact ih _ he
    | none =>
      simp only [expireExisting, h0] at he
      exact ih _ he

theorem determineStateChange_valid (st : FlightPlanState) (p : Pilot)
    (pa : Option Int) (sc : StateChangeResult)
    (h : determineStateChange (some st) p pa = some sc) :
    isValidStateTransition st sc.newState = true := by
  cases st <;>
    simp only [determineStateChange, Option.getD] at h <;>
    [skip; skip; skip; skip; cases h; cases h] <;>
    split at h <;>
    first
      | (cases h; decide)
      | (split at h <;> first | (cases h; decide) | cases h)
      | cases h

/-- Claim C3: for every input (currentState, pilot, previousAltitude), the
transition function determineStateChange returns exactly the result of the
section 4.3 table with conditions evaluated in the listed order and the
first match firing, treating an absent currentState as filed, returning at
most one transition per call (an Option), and never consulting altitude or
previousAltitude: its result coincides with stateChangeTableSpec, a function
of the current state and the ground speed alone. -/
theorem fp_C3_state_machine_follows_table :
    ∀ (currentState : Option FlightPlanState) (p : Pilot) (previousAltitude : Option Int),
      determineStateChange currentState p previousAltitude =
        stateChangeTableSpec currentState p.groundspeed := by
  intro cs p pa
  cases cs with
  | none => rfl
  | some st => cases st <;> rfl

/-- Claim C6: when the proposed new state is not in the allowed-transition
set for the record's current state, updateFlightPlanState publishes no event
and returns the store unchanged (every field of the stored record is left as
before). -/
theorem fp_C6_invalid_transition_is_noop :
    ∀ (key : String) (currentData : RedisFlightPlan) (newState : FlightPlanState)
      (reason : String) (pilot : PilotOrPrefile) (now : Nat) (s : Store),
      isValidStateTransition currentData.state newState = false →
      updateFlightPlanState key currentData newState reason pilot now s = ([], s) := by
  intro key currentData newState reason pilot now s h
  simp [updateFlightPlanState, h]

/-- Witness for C6 at a concrete input: a record in the terminal state
arrived with a proposed transition to enroute. -/
theorem fp_C6_invalid_transition_is_noop_witness :
    isValidStateTransition sampleRecordArrived.state .enroute = false ∧
    updateFlightPlanState "1-BAW1-EGLL" sampleRecordArrived .enroute "already_landed"
      (.pilot samplePilot) 5 [("1-BAW1-EGLL", sampleRecordArrived)] =
      ([], [("1-BAW1-EGLL", sampleRecordArrived)]) :=
  ⟨by decide,
   fp_C6_invalid_transition_is_noop "1-BAW1-EGLL" sampleRecordArrived .enroute
     "already_landed" (.pilot samplePilot) 5 [("1-BAW1-EGLL", sampleRecordArrived)]
     (by decide)⟩

/-- Claim C4: whenever the TTL sentinel `ttl:` ++ key fires and the data key
still holds a record, exactly two events are published, in order: first the
state_change with previous = the stored state, current = cancelled and
reason flight_plan_expired, then the expire event; afterwards the data key
is deleted. When the data key is absent, nothing is published and the store
is untouched. -/
theorem fp_C4_expiry_two_events_in_order :
    ∀ (key : String) (now : Nat) (s : Store),
      (∀ d, getFlightPlan s key = some d →
        onExpire ("ttl:" ++ key) now s =
          ([{ event := .state_change, pilot := d.pilot, flight_plan := d.flightPlan,
              timestamp := now,
              state := some ⟨d.state, .cancelled, "flight_plan_expired"⟩,
              position := none },
            { event := .expire, pilot := d.pilot, flight_plan := d.flightPlan,
              timestamp := now, state := none, position := none }],
            deleteFlightPlan s key) ∧
        getFlightPlan (onExpire ("ttl:" ++ key) now s).2 key = none) ∧
      (getFlightPlan s key = none → onExpire ("ttl:" ++ key) now s = ([], s)) := by
  intro key now s
  have hpfx : strStartsWith "ttl:" ("ttl:" ++ key) = true := strStartsWith_append _ _
  have hstrip : String.mk (("ttl:" ++ key).data.drop 4) = key := mk_data_drop_ttl key
  constructor
  · intro d hd
    have h1 : onExpire ("ttl:" ++ key) now s =
        ([mkExpiredStateChangeEvent d now, mkExpireEvent d now], deleteFlightPlan s key) := by
      simp [onExpire, hpfx, hstrip, hd]
    refine ⟨h1, ?_⟩
    rw [h1]
    exact getFlightPlan_deleteFlightPlan_self s key
  · intro hd
    simp [onExpire, hpfx, hstrip, hd]

/-- Witness for C4 at a concrete input: a one-record store whose sentinel
fires, and the empty store where the data is gone. -/
theorem fp_C4_expiry_two_events_in_order_witness :
    (onExpire "ttl:1-BAW1-EGLL" 7 [("1-BAW1-EGLL", sampleRecordFiled)] =
      ([{ event := .state_change, pilot := sampleRecordFiled.pilot,
          flight_plan := sampleRecordFiled.flightPlan, timestamp := 7,
          state := some ⟨sampleRecordFiled.state, .cancelled, "flight_plan_expired"⟩,
          position := none },
        { event := .expire, pilot := sampleRecordFiled.pilot,
          flight_plan := sampleRecordFiled.flightPlan, timestamp := 7,
          state := none, position := none }],
        deleteFlightPlan [("1-BAW1-EGLL", sampleRecordFiled)] "1-BAW1-EGLL")) ∧
    onExpire "ttl:1-BAW1-EGLL" 7 [] = ([], []) :=
  ⟨((fp_C4_expiry_two_events_in_order "1-BAW1-EGLL" 7
      [("1-BAW1-EGLL", sampleRecordFiled)]).1 sampleRecordFiled (by decide)).1,
   (fp_C4_expiry_two_events_in_order "1-BAW1-EGLL" 7 []).2 rfl⟩

/-- Claim C10: ingest is not frame-confined to the invoking identity. For the
distinct identities (1, BAW1) and (1, BAW11) — where "1-BAW1" is a proper
prefix of "1-BAW11" — the pattern scan for (1, BAW1) returns (1, BAW11)'s
record (created here by an ordinary ingest from the empty store), and an
ingest by (1, BAW1) with a non-matching departure expires and deletes the
record belonging to (1, BAW11). -/
theorem fp_C10_cross_identity_capture :
    (findKeysByPattern (baseKeyOf (.prefile samplePrefileEGKK))
        (processRawFlightPlan (.prefile samplePrefileOther) 10 []).2 =
      ["1-BAW11-EGLL"]) ∧
    baseKeyOf (.prefile samplePrefileEGKK) = "1-BAW1" ∧
    ((processRawFlightPlan (.prefile samplePrefileEGKK) 20
        (processRawFlightPlan (.prefile samplePrefileOther) 10 []).2).1.map
      fun e => (e.event, e.pilot)) =
      [(.expire, (⟨1, "BAW11"⟩ : PilotId)), (.file, (⟨1, "BAW1"⟩ : PilotId))] ∧
    getFlightPlan
      (processRawFlightPlan (.prefile samplePrefileEGKK) 20
        (processRawFlightPlan (.prefile samplePrefileOther) 10 []).2).2
      "1-BAW11-EGLL" = none := by
  refine ⟨by decide, by decide, by decide, by decide⟩

/-- Claim C8 (amended): feeding the controller tracker batch A = [X] with id
A, batch B empty with id B, and batch C = [X] with id C from the cold-start
state produces no events after batch A, none after batch B, and also none
after batch C: X was inserted into the cache during batch A (silently,
during warm-up) and its reappearance in batch C only refreshes lastSeen —
connect is emitted only when a key is newly inserted with batchesObserved
above the threshold. The empty batch delivers no messages, so the batch
counter stands at 2 after batch C. -/
theorem ctrl_C8_warmup_no_connect :
    (processBatch [sampleController] (some "A") 10 ⟨[], 0, none⟩).1 = [] ∧
    (processBatch [] (some "B") 20
      (processBatch [sampleController] (some "A") 10 ⟨[], 0, none⟩).2).1 = [] ∧
    (processBatch [sampleController] (some "C") 30
      (processBatch [] (some "B") 20
        (processBatch [sampleController] (some "A") 10 ⟨[], 0, none⟩).2).2).1 = [] ∧
    (processBatch [sampleController] (some "C") 30
      (processBatch [] (some "B") 20
        (processBatch [sampleController] (some "A") 10 ⟨[], 0, none⟩).2).2).2.batchCount = 2 := by
  refine ⟨by decide, by decide, by decide, by decide⟩

/-- Counterexample to claim C8 as stated: after batch C the tracker publishes
zero events, not exactly one connect for X. -/
theorem ctrl_C8_counterexample :
    ((processBatch [sampleController] (some "C") 30
        (processBatch [] (some "B") 20
          (processBatch [sampleController] (some "A") 10 ⟨[], 0, none⟩).2).2).1.filter
      fun e => decide (e.event = "connect")).length = 0 := by
  decide

/-- Counterexample to claim C9 as stated: from the empty store, ingesting
samplePilot (groundspeed 120) publishes exactly the file event; reprocessing
the identical message immediately afterwards publishes an additional
state_change event (filed to enroute, already_airborne), so redelivery is
not event-free. -/
theorem fp_C9_counterexample :
    ((processRawFlightPlan (.pilot samplePilot) 100 []).1.map fun e => e.event) =
      [.file] ∧
    ((processRawFlightPlan (.pilot samplePilot) 200
        (processRawFlightPlan (.pilot samplePilot) 100 []).2).1.map
      fun e => (e.event, e.state)) =
      [(.state_change,
        some (⟨.filed, .enroute, "already_airborne"⟩ : StateInfo))] := by
  refine ⟨by decide, by decide⟩

/-- Counterexample to claim C2 as stated: a reachable execution (file, then
redelivery advancing filed to enroute, then a slow position report advancing
enroute to arrived) leaves a stored record in state arrived; when its TTL
sentinel fires, the program publishes a state_change with previous = arrived
and current = cancelled, a pair that is not in the allowed-transition table. -/
theorem fp_C2_counterexample :
    (((onExpire "ttl:1-BAW1-EGLL" 400
        (processRawFlightPlan (.pilot samplePilotSlow) 300
          (processRawFlightPlan (.pilot samplePilot) 200
            (processRawFlightPlan (.pilot samplePilot) 100 []).2).2).2).1.map
      fun e => (e.event, e.state)) =
      [(.state_change,
        some (⟨.arrived, .cancelled, "flight_plan_expired"⟩ : StateInfo)),
       (.expire, none)]) ∧
    isValidStateTransition .arrived .cancelled = false := by
  refine ⟨by decide, by decide⟩

/-- Counterexample to claim C1 as stated: from the empty store, ingest a plan
for (1, BAW1) departing EGKK, then one for (1, BAW11) departing EGLL, then a
changed EGLL plan for (1, BAW1). The third ingest's pattern scan for
"1-BAW1" captures (1, BAW11)'s record, matches it by departure, and
overwrites its pilot field with (1, BAW1) — so after that ingest completes,
two active records carry the identity (1, BAW1). -/
theorem fp_C1_counterexample :
    ((processRawFlightPlan (.prefile samplePrefileEGLLv2) 30
        (processRawFlightPlan (.prefile samplePrefileOther) 20
          (processRawFlightPlan (.prefile samplePrefileEGKK) 10 []).2).2).2.filter
      fun kv => decide (kv.2.pilot = (⟨1, "BAW1"⟩ : PilotId))).length = 2 := by
  decide

theorem getFlightPlan_expireExisting_of_mem (keys : List String) (now : Nat)
    (s : Store) (k : String) (hk : k ∈ keys) :
    getFlightPlan (expireExisting keys now s).2 k = none := by
  rw [expireExisting_snd, getFlightPlan_eq_none_iff]
  intro kv hkv
  have h2 : kv.1 ∉ keys := by simpa using List.of_mem_filter hkv
  exact fun hEq => h2 (hEq ▸ hk)

theorem processRawFlightPlan_no_match_eq (pl : PilotOrPrefile) (now : Nat) (s : Store)
    (h : findMatch (findKeysByPattern (baseKeyOf pl) s) s pl.flight_plan.departure = none) :
    processRawFlightPlan pl now s =
      ((expireExisting (findKeysByPattern (baseKeyOf pl) s) now s).1 ++
        [{ event := .file, pilot := pl.pilotId, flight_plan := pl.flight_plan,
           timestamp := now, state := none, position := none }],
       setFlightPlan (expireExisting (findKeysByPattern (baseKeyOf pl) s) now s).2
         (baseKeyOf pl ++ "-" ++ pl.flight_plan.departure)
         { timestamp := now, pilot := pl.pilotId, flightPlan := pl.flight_plan,
           state := .filed, lastStateChange := now,
           previousAltitude := initialPreviousAltitude pl }) := by
  simp only [processRawFlightPlan, h]

/-- Claim C5: when the departure of the incoming plan matches no stored
record under the baseKey, the ingest publishes the expire events of all
scanned records before the file event of the new record; each scanned record
still present is expired and deleted from the store; and the new record is
created under baseKey-departure with state filed, lastStateChange = now, and
previousAltitude taken from the pilot exactly when position is present. -/
theorem fp_C5_supersession_expire_before_file :
    ∀ (pl : PilotOrPrefile) (now : Nat) (s : Store),
      findMatch (findKeysByPattern (baseKeyOf pl) s) s pl.flight_plan.departure = none →
      ((processRawFlightPlan pl now s).1 =
          (expireExisting (findKeysByPattern (baseKeyOf pl) s) now s).1 ++
            [{ event := .file, pilot := pl.pilotId, flight_plan := pl.flight_plan,
               timestamp := now, state := none, position := none }]) ∧
      (∀ e ∈ (expireExisting (findKeysByPattern (baseKeyOf pl) s) now s).1,
        e.event = .expire) ∧
      (∀ k d, k ∈ findKeysByPattern (baseKeyOf pl) s → getFlightPlan s k = some d →
        mkExpireEvent d now ∈ (expireExisting (findKeysByPattern (baseKeyOf pl) s) now s).1 ∧
        getFlightPlan (expireExisting (findKeysByPattern (baseKeyOf pl) s) now s).2 k = none) ∧
      getFlightPlan (processRawFlightPlan pl now s).2
          (baseKeyOf pl ++ "-" ++ pl.flight_plan.departure) =
        some { timestamp := now, pilot := pl.pilotId, flightPlan := pl.flight_plan,
               state := .filed, lastStateChange := now,
               previousAltitude := initialPreviousAltitude pl } := by
  intro pl now s h
  have hunfold := processRawFlightPlan_no_match_eq pl now s h
  refine ⟨by rw [hunfold], ?_, ?_, ?_⟩
  · intro e he
    exact (expireExisting_events_are_expire _ now s e he).1
  · intro k d hk hd
    exact ⟨expireExisting_events_mem _ now s k d hk hd,
           getFlightPlan_expireExisting_of_mem _ now s k hk⟩
  · rw [hunfold]
    exact getFlightPlan_setFlightPlan_self _ _ _

/-- Witness for C5 at a concrete input: samplePilot ingested into the empty
store (no scanned keys, so no expires) files the new record. -/
theorem fp_C5_supersession_expire_before_file_witness :
    ((processRawFlightPlan (.pilot samplePilot) 100 []).1 =
        (expireExisting (findKeysByPattern (baseKeyOf (.pilot samplePilot)) []) 100 []).1 ++
          [{ event := .file, pilot := PilotOrPrefile.pilotId (.pilot samplePilot),
             flight_plan := PilotOrPrefile.flight_plan (.pilot samplePilot),
             timestamp := 100, state := none, position := none }]) ∧
    getFlightPlan (processRawFlightPlan (.pilot samplePilot) 100 []).2
        (baseKeyOf (.pilot samplePilot) ++ "-" ++
          (PilotOrPrefile.flight_plan (.pilot samplePilot)).departure) =
      some { timestamp := 100, pilot := PilotOrPrefile.pilotId (.pilot samplePilot),
             flightPlan := PilotOrPrefile.flight_plan (.pilot samplePilot),
             state := .filed, lastStateChange := 100,
             previousAltitude := initialPreviousAltitude (.pilot samplePilot) } :=
  ⟨(fp_C5_supersession_expire_before_file (.pilot samplePilot) 100 [] rfl).1,
   (fp_C5_supersession_expire_before_file (.pilot samplePilot) 100 [] rfl).2.2.2⟩

/-- Claim C7: for every ingest of a connected Pilot that matches a stored
record: when the state machine returns a transition, that transition is
always valid per the allowed-transition table (so the dropped-as-invalid
case of the claim never arises on this path) and the matched record is
overwritten with the new state while a state_change event is emitted; when
the state machine returns nothing, the matched record's previousAltitude is
overwritten with the pilot's current altitude. -/
theorem fp_C7_match_position_handling :
    ∀ (p : Pilot) (now : Nat) (s : Store) (key : String) (data : RedisFlightPlan),
      findMatch (findKeysByPattern (baseKeyOf (.pilot p)) s) s p.flight_plan.departure =
        some (key, data) →
      (∀ sc, determineStateChange (some data.state) p data.previousAltitude = some sc →
        isValidStateTransition data.state sc.newState = true ∧
        getFlightPlan (processRawFlightPlan (.pilot p) now s).2 key =
          some { data with state := sc.newState, lastStateChange := now, timestamp := now } ∧
        ({ event := .state_change, pilot := PilotOrPrefile.pilotId (.pilot p),
           flight_plan := data.flightPlan, timestamp := now,
           state := some ⟨data.state, sc.newState, sc.reason⟩,
           position := positionOf (.pilot p) } : FPEvent) ∈
          (processRawFlightPlan (.pilot p) now s).1) ∧
      (determineStateChange (some data.state) p data.previousAltitude = none →
        getFlightPlan (processRawFlightPlan (.pilot p) now s).2 key =
          some { data with previousAltitude := some p.altitude, timestamp := now }) := by
  intro p now s key data hmatch
  have hred : processRawFlightPlan (.pilot p) now s = processMatch (.pilot p) key data now s := by
    simp only [processRawFlightPlan, PilotOrPrefile.flight_plan, hmatch]
  constructor
  · intro sc hsc
    have hvalid := determineStateChange_valid data.state p data.previousAltitude sc hsc
    refine ⟨hvalid, ?_, ?_⟩
    · rw [hred]
      simp only [processMatch, PilotOrPrefile.flight_plan, hsc, updateFlightPlanState,
        hvalid, if_true]
      exact getFlightPlan_setFlightPlan_self _ _ _
    · rw [hred]
      simp only [processMatch, PilotOrPrefile.flight_plan, hsc, updateFlightPlanState,
        hvalid, if_true]
      exact List.mem_append_right _ (List.mem_cons_self _ _)
  · intro hnone
    rw [hred]
    simp only [processMatch, PilotOrPrefile.flight_plan, hnone]
    exact getFlightPlan_setFlightPlan_self _ _ _

/-- Witness for C7 at a concrete input: samplePilot (groundspeed 120) matched
against a stored filed record; the machine proposes filed to enroute, which
is valid, the record is overwritten and the state_change is published. -/
theorem fp_C7_match_position_handling_witness :
    isValidStateTransition sampleRecordFiled.state
        (⟨.enroute, "already_airborne"⟩ : StateChangeResult).newState = true ∧
    getFlightPlan (processRawFlightPlan (.pilot samplePilot) 200
        [("1-BAW1-EGLL", sampleRecordFiled)]).2 "1-BAW1-EGLL" =
      some { sampleRecordFiled with
             state := (⟨.enroute, "already_airborne"⟩ : StateChangeResult).newState,
             lastStateChange := 200, timestamp := 200 } ∧
    ({ event := .state_change, pilot := PilotOrPrefile.pilotId (.pilot samplePilot),
       flight_plan := sampleRecordFiled.flightPlan, timestamp := 200,
       state := some ⟨sampleRecordFiled.state,
         (⟨.enroute, "already_airborne"⟩ : StateChangeResult).newState,
         (⟨.enroute, "already_airborne"⟩ : StateChangeResult).reason⟩,
       position := positionOf (.pilot samplePilot) } : FPEvent) ∈
      (processRawFlightPlan (.pilot samplePilot) 200
        [("1-BAW1-EGLL", sampleRecordFiled)]).1 :=
  (fp_C7_match_position_handling samplePilot 200 [("1-BAW1-EGLL", sampleRecordFiled)]
    "1-BAW1-EGLL" sampleRecordFiled (by decide)).1
    ⟨.enroute, "already_airborne"⟩ (by decide)

theorem updateFlightPlanState_state_change_valid (key : String)
    (currentData : RedisFlightPlan) (newState : FlightPlanState) (reason : String)
    (pilot : PilotOrPrefile) (now : Nat) (s : Store) (e : FPEvent) (st : StateInfo)
    (he : e ∈ (updateFlightPlanState key currentData newState reason pilot now s).1)
    (hst : e.state = some st) :
    isValidStateTransition st.previous st.current = true := by
  by_cases hv : isValidStateTransition currentData.state newState = true
  · simp only [updateFlightPlanState, if_pos hv, List.mem_singleton] at he
    subst he
    simp only at hst
    cases hst
    exact hv
  · simp only [updateFlightPlanState, if_neg hv] at he
    simp at he

theorem processMatch_state_change_valid (pl : PilotOrPrefile) (key : String)
    (data : RedisFlightPlan) (now : Nat) (s : Store) (e : FPEvent) (st : StateInfo)
    (he : e ∈ (processMatch pl key data now s).1) (hst : e.state = some st) :
    isValidStateTransition st.previous st.current = true := by
  cases pl with
  | prefile q =>
    simp only [processMatch, PilotOrPrefile.flight_plan] at he
    by_cases hc : detectFlightPlanChanges data.flightPlan q.flight_plan = true
    · rw [if_pos hc] at he
      simp only [List.mem_singleton] at he
      subst he
      simp at hst
    · rw [if_neg hc] at he
      simp at he
  | pilot q =>
    simp only [processMatch, PilotOrPrefile.flight_plan] at he
    cases hd : determineStateChange (some data.state) q data.previousAltitude with
    | some sc =>
      simp only [hd] at he
      rcases List.mem_append.mp he with he1 | he2
      · by_cases hc : detectFlightPlanChanges data.flightPlan q.flight_plan = true
        · rw [if_pos hc] at he1
          simp only [List.mem_singleton] at he1
          subst he1
          simp at hst
        · rw [if_neg hc] at he1
          simp at he1
      · exact updateFlightPlanState_state_change_valid _ _ _ _ _ _ _ _ _ he2 hst
    | none =>
      simp only [hd] at he
      by_cases hc : detectFlightPlanChanges data.flightPlan q.flight_plan = true
      · rw [if_pos hc] at he
        simp only [List.mem_singleton] at he
        subst he
        simp at hst
      · rw [if_neg hc] at he
        simp at he

theorem isValid_cancelled_iff (ds : FlightPlanState) :
    isValidStateTransition ds .cancelled = true ↔ ds ≠ .arrived ∧ ds ≠ .cancelled := by
  cases ds <;> decide

/-- Claim C2 (amended): every state_change event published from the ingest
path has a (previous, current) pair in the allowed-transition table. The
TTL-expiry path publishes previous = the stored state and current =
cancelled unconditionally, and that pair is in the table exactly when the
stored state is neither arrived nor cancelled — so an arrived record whose
TTL fires yields the pair (arrived, cancelled), which the table forbids. -/
theorem fp_C2_state_change_transitions :
    (∀ (pl : PilotOrPrefile) (now : Nat) (s : Store) (e : FPEvent) (st : StateInfo),
      e ∈ (processRawFlightPlan pl now s).1 → e.state = some st →
      isValidStateTransition st.previous st.current = true) ∧
    (∀ (key : String) (now : Nat) (s : Store) (d : RedisFlightPlan) (e : FPEvent)
      (st : StateInfo),
      getFlightPlan s key = some d →
      e ∈ (onExpire ("ttl:" ++ key) now s).1 → e.state = some st →
      st = ⟨d.state, .cancelled, "flight_plan_expired"⟩ ∧
      (isValidStateTransition st.previous st.current = true ↔
        d.state ≠ .arrived ∧ d.state ≠ .cancelled)) := by
  constructor
  · intro pl now s e st he hst
    cases hm : findMatch (findKeysByPattern (baseKeyOf pl) s) s pl.flight_plan.departure with
    | some kd =>
      obtain ⟨key, data⟩ := kd
      have hred : processRawFlightPlan pl now s = processMatch pl key data now s := by
        simp only [processRawFlightPlan, hm]
      rw [hred] at he
      exact processMatch_state_change_valid pl key data now s e st he hst
    | none =>
      have hred := congrArg Prod.fst (processRawFlightPlan_no_match_eq pl now s hm)
      rw [hred] at he
      rcases List.mem_append.mp he with he1 | he2
      · have := (expireExisting_events_are_expire _ now s e he1).2
        rw [this] at hst
        cases hst
      · simp only [List.mem_singleton] at he2
        subst he2
        simp at hst
  · intro key now s d e st hd he hst
    have hpfx : strStartsWith "ttl:" ("ttl:" ++ key) = true := strStartsWith_append _ _
    have hstrip : String.mk (("ttl:" ++ key).data.drop 4) = key := mk_data_drop_ttl key
    simp only [onExpire, hpfx, if_true, hstrip, hd] at he
    rcases List.mem_cons.mp he with he1 | he1
    · subst he1
      simp only [mkExpiredStateChangeEvent, Option.some.injEq] at hst
      subst hst
      exact ⟨rfl, isValid_cancelled_iff d.state⟩
    · simp only [List.mem_singleton] at he1
      subst he1
      simp [mkExpireEvent] at hst

theorem updateFlightPlanState_events_kind (key : String) (currentData : RedisFlightPlan)
    (newState : FlightPlanState) (reason : String) (pilot : PilotOrPrefile)
    (now : Nat) (s : Store) (e : FPEvent)
    (he : e ∈ (updateFlightPlanState key currentData newState reason pilot now s).1) :
    e.event = .state_change := by
  by_cases hv : isValidStateTransition currentData.state newState = true
  · simp only [updateFlightPlanState, if_pos hv, List.mem_singleton] at he
    subst he
    rfl
  · simp only [updateFlightPlanState, if_neg hv] at he
    simp at he

theorem processMatch_events_kind (pl : PilotOrPrefile) (key : String)
    (data : RedisFlightPlan) (now : Nat) (s : Store) (e : FPEvent)
    (he : e ∈ (processMatch pl key data now s).1) :
    e.event = .update ∨ e.event = .state_change := by
  cases pl with
  | prefile q =>
    simp only [processMatch, PilotOrPrefile.flight_plan] at he
    by_cases hc : detectFlightPlanChanges data.flightPlan q.flight_plan = true
    · rw [if_pos hc] at he
      simp only [List.mem_singleton] at he
      subst he
      exact Or.inl rfl
    · rw [if_neg hc] at he
      simp at he
  | pilot q =>
    simp only [processMatch, PilotOrPrefile.flight_plan] at he
    cases hd : determineStateChange (some data.state) q data.previousAltitude with
    | some sc =>
      simp only [hd] at he
      rcases List.mem_append.mp he with he1 | he2
      · by_cases hc : detectFlightPlanChanges data.flightPlan q.flight_plan = true
        · rw [if_pos hc] at he1
          simp only [List.mem_singleton] at he1
          subst he1
          exact Or.inl rfl
        · rw [if_neg hc] at he1
          simp at he1
      · exact Or.inr (updateFlightPlanState_events_kind _ _ _ _ _ _ _ _ he2)
    | none =>
      simp only [hd] at he
      by_cases hc : detectFlightPlanChanges data.flightPlan q.flight_plan = true
      · rw [if_pos hc] at he
        simp only [List.mem_singleton] at he
        subst he
        exact Or.inl rfl
      · rw [if_neg hc] at he
        simp at he

theorem processMatch_map_fst (pl : PilotOrPrefile) (key : String)
    (data : RedisFlightPlan) (now : Nat) (s : Store)
    (hlook : getFlightPlan s key = some data) :
    ((processMatch pl key data now s).2).map Prod.fst = s.map Prod.fst := by
  cases pl with
  | prefile q =>
    simp only [processMatch, PilotOrPrefile.flight_plan]
    by_cases hc : detectFlightPlanChanges data.flightPlan q.flight_plan = true
    · rw [if_pos hc]
      exact map_fst_setFlightPlan s key _ data hlook
    · rw [if_neg hc]
  | pilot q =>
    simp only [processMatch, PilotOrPrefile.flight_plan]
    by_cases hc : detectFlightPlanChanges data.flightPlan q.flight_plan = true
    · rw [if_pos hc]
      have h1 : getFlightPlan (setFlightPlan s key
          { timestamp := now, pilot := PilotOrPrefile.pilotId (.pilot q),
            flightPlan := q.flight_plan, state := data.state,
            lastStateChange := data.lastStateChange,
            previousAltitude := data.previousAltitude }) key = some _ :=
        getFlightPlan_setFlightPlan_self s key _
      have hm1 := map_fst_setFlightPlan s key
          { timestamp := now, pilot := PilotOrPrefile.pilotId (.pilot q),
            flightPlan := q.flight_plan, state := data.state,
            lastStateChange := data.lastStateChange,
            previousAltitude := data.previousAltitude } data hlook
      cases hd : determineStateChange (some data.state) q data.previousAltitude with
      | some sc =>
        simp only [updateFlightPlanState]
        by_cases hv : isValidStateTransition data.state sc.newState = true
        · rw [if_pos hv]
          rw [map_fst_setFlightPlan _ key _ _ h1]
          exact hm1
        · rw [if_neg hv]
          exact hm1
      | none =>
        rw [map_fst_setFlightPlan _ key _ _ h1]
        exact hm1
    · rw [if_neg hc]
      cases hd : determineStateChange (some data.state) q data.previousAltitude with
      | some sc =>
        simp only [updateFlightPlanState]
        by_cases hv : isValidStateTransition data.state sc.newState = true
        · rw [if_pos hv]
          exact map_fst_setFlightPlan s key _ data hlook
        · rw [if_neg hv]
      | none =>
        exact map_fst_setFlightPlan s key _ data hlook

theorem processMatch_lookup_departure (pl : PilotOrPrefile) (key : String)
    (data : RedisFlightPlan) (now : Nat) (s : Store)
    (hlook : getFlightPlan s key = some data)
    (hdep : data.flightPlan.departure = pl.flight_plan.departure) :
    ∃ v, getFlightPlan (processMatch pl key data now s).2 key = some v ∧
      v.flightPlan.departure = pl.flight_plan.departure := by
  cases pl with
  | prefile q =>
    simp only [processMatch, PilotOrPrefile.flight_plan] at hdep ⊢
    by_cases hc : detectFlightPlanChanges data.flightPlan q.flight_plan = true
    · rw [if_pos hc]
      exact ⟨_, getFlightPlan_setFlightPlan_self s key _, rfl⟩
    · rw [if_neg hc]
      exact ⟨data, hlook, hdep⟩
  | pilot q =>
    simp only [processMatch, PilotOrPrefile.flight_plan] at hdep ⊢
    by_cases hc : detectFlightPlanChanges data.flightPlan q.flight_plan = true
    · rw [if_pos hc]
      cases hd : determineStateChange (some data.state) q data.previousAltitude with
      | some sc =>
        simp only [updateFlightPlanState]
        by_cases hv : isValidStateTransition data.state sc.newState = true
        · rw [if_pos hv]
          exact ⟨_, getFlightPlan_setFlightPlan_self _ key _, hdep⟩
        · rw [if_neg hv]
          exact ⟨_, getFlightPlan_setFlightPlan_self s key _, rfl⟩
      | none =>
        exact ⟨_, getFlightPlan_setFlightPlan_self _ key _, hdep⟩
    · rw [if_neg hc]
      cases hd : determineStateChange (some data.state) q data.previousAltitude with
      | some sc =>
        simp only [updateFlightPlanState]
        by_cases hv : isValidStateTransition data.state sc.newState = true
        · rw [if_pos hv]
          exact ⟨_, getFlightPlan_setFlightPlan_self s key _, hdep⟩
        · rw [if_neg hv]
          exact ⟨data, hlook, hdep⟩
      | none =>
        exact ⟨_, getFlightPlan_setFlightPlan_self s key _, hdep⟩

theorem processRawFlightPlan_second_run_matches (pl : PilotOrPrefile) (now : Nat)
    (s : Store) :
    (findMatch (findKeysByPattern (baseKeyOf pl) (processRawFlightPlan pl now s).2)
      ((processRawFlightPlan pl now s).2) pl.flight_plan.departure).isSome = true := by
  cases hm : findMatch (findKeysByPattern (baseKeyOf pl) s) s pl.flight_plan.departure with
  | some kd =>
    obtain ⟨key, data⟩ := kd
    have hred : processRawFlightPlan pl now s = processMatch pl key data now s := by
      simp only [processRawFlightPlan, hm]
    obtain ⟨hkmem, hlook, hdep⟩ := findMatch_eq_some _ s _ key data hm
    obtain ⟨v, hv, hvdep⟩ := processMatch_lookup_departure pl key data now s hlook hdep
    have hfst : ((processMatch pl key data now s).2).map Prod.fst = s.map Prod.fst :=
      processMatch_map_fst pl key data now s hlook
    have hkmem2 : key ∈ findKeysByPattern (baseKeyOf pl) (processMatch pl key data now s).2 := by
      rw [mem_findKeysByPattern] at hkmem ⊢
      rw [hfst]
      exact hkmem
    rw [hred]
    exact findMatch_isSome_of_mem _ _ _ key v hkmem2 hv hvdep
  | none =>
    have hred := processRawFlightPlan_no_match_eq pl now s hm
    rw [hred]
    have hv : getFlightPlan
        (setFlightPlan (expireExisting (findKeysByPattern (baseKeyOf pl) s) now s).2
          (baseKeyOf pl ++ "-" ++ pl.flight_plan.departure)
          { timestamp := now, pilot := pl.pilotId, flightPlan := pl.flight_plan,
            state := .filed, lastStateChange := now,
            previousAltitude := initialPreviousAltitude pl })
        (baseKeyOf pl ++ "-" ++ pl.flight_plan.departure) =
        some { timestamp := now, pilot := pl.pilotId, flightPlan := pl.flight_plan,
               state := .filed, lastStateChange := now,
               previousAltitude := initialPreviousAltitude pl } :=
      getFlightPlan_setFlightPlan_self _ _ _
    have hmem : (baseKeyOf pl ++ "-" ++ pl.flight_plan.departure) ∈
        (setFlightPlan (expireExisting (findKeysByPattern (baseKeyOf pl) s) now s).2
          (baseKeyOf pl ++ "-" ++ pl.flight_plan.departure)
          { timestamp := now, pilot := pl.pilotId, flightPlan := pl.flight_plan,
            state := .filed, lastStateChange := now,
            previousAltitude := initialPreviousAltitude pl }).map Prod.fst :=
      List.mem_map_of_mem Prod.fst (mem_of_getFlightPlan_eq_some _ _ _ hv)
    have hpfx : strStartsWith (baseKeyOf pl)
        (baseKeyOf pl ++ "-" ++ pl.flight_plan.departure) = true :=
      strStartsWith_append2 _ _ _
    have hkmem2 : (baseKeyOf pl ++ "-" ++ pl.flight_plan.departure) ∈
        findKeysByPattern (baseKeyOf pl)
          (setFlightPlan (expireExisting (findKeysByPattern (baseKeyOf pl) s) now s).2
            (baseKeyOf pl ++ "-" ++ pl.flight_plan.departure)
            { timestamp := now, pilot := pl.pilotId, flightPlan := pl.flight_plan,
              state := .filed, lastStateChange := now,
              previousAltitude := initialPreviousAltitude pl }) := by
      rw [mem_findKeysByPattern]
      exact ⟨hmem, hpfx⟩
    exact findMatch_isSome_of_mem _ _ _ _ _ hkmem2 hv rfl

/-- Claim C9 (amended): reprocessing the same message immediately after a
first processing publishes no additional file or expire event — the second
run always services the record in place. It is not event-free, though: it
may publish an update (when the first run applied both a plan update and
position handling, whose writes restore the pre-update plan) or a
state_change (when the first run filed the record and the ground speed
already meets a transition condition, as in the counterexample). -/
theorem fp_C9_redelivery_no_file_or_expire :
    ∀ (pl : PilotOrPrefile) (now1 now2 : Nat) (s : Store),
      ((processRawFlightPlan pl now2 (processRawFlightPlan pl now1 s).2).1.all
        fun e => decide (e.event ≠ .file) && decide (e.event ≠ .expire)) = true := by
  intro pl now1 now2 s
  rw [List.all_eq_true]
  intro e he
  have hs := processRawFlightPlan_second_run_matches pl now1 s
  set s1 := (processRawFlightPlan pl now1 s).2 with hs1
  obtain ⟨⟨key, data⟩, hm⟩ := Option.isSome_iff_exists.mp hs
  have hred : processRawFlightPlan pl now2 s1 = processMatch pl key data now2 s1 := by
    simp only [processRawFlightPlan, hm]
  rw [hred] at he
  rcases processMatch_events_kind pl key data now2 s1 e he with h | h <;> simp [h]

/-- Witness for C2 at concrete inputs: a state_change produced by an ingest
against a stored filed record, and the expiry of a filed record. -/
theorem fp_C2_state_change_transitions_witness :
    isValidStateTransition
        (⟨.filed, .enroute, "already_airborne"⟩ : StateInfo).previous
        (⟨.filed, .enroute, "already_airborne"⟩ : StateInfo).current = true ∧
    ((⟨.filed, .cancelled, "flight_plan_expired"⟩ : StateInfo) =
        ⟨sampleRecordFiled.state, .cancelled, "flight_plan_expired"⟩ ∧
      (isValidStateTransition
          (⟨.filed, .cancelled, "flight_plan_expired"⟩ : StateInfo).previous
          (⟨.filed, .cancelled, "flight_plan_expired"⟩ : StateInfo).current = true ↔
        sampleRecordFiled.state ≠ .arrived ∧ sampleRecordFiled.state ≠ .cancelled)) :=
  ⟨fp_C2_state_change_transitions.1 (.pilot samplePilot) 200
      [("1-BAW1-EGLL", sampleRecordFiled)]
      { event := .state_change, pilot := ⟨1, "BAW1"⟩, flight_plan := samplePlan,
        timestamp := 200, state := some ⟨.filed, .enroute, "already_airborne"⟩,
        position := some ⟨51, 0, 8000, 120, 270⟩ }
      ⟨.filed, .enroute, "already_airborne"⟩ (by decide) rfl,
   fp_C2_state_change_transitions.2 "1-BAW1-EGLL" 7
      [("1-BAW1-EGLL", sampleRecordFiled)] sampleRecordFiled
      { event := .state_change, pilot := ⟨1, "BAW1"⟩, flight_plan := samplePlan,
        timestamp := 7, state := some ⟨.filed, .cancelled, "flight_plan_expired"⟩,
        position := none }
      ⟨.filed, .cancelled, "flight_plan_expired"⟩ (by decide) (by decide) rfl⟩

theorem setFlightPlan_filter_pilot_length (s : Store) (key : String)
    (v d : RedisFlightPlan) (pid : PilotId) (hlook : getFlightPlan s key = some d)
    (hpid : v.pilot = d.pilot) :
    ((setFlightPlan s key v).filter fun kv => decide (kv.2.pilot = pid)).length =
      (s.filter fun kv => decide (kv.2.pilot = pid)).length := by
  induction s with
  | nil => simp [getFlightPlan] at hlook
  | cons kv rest ih =>
    obtain ⟨k0, w⟩ := kv
    by_cases h0 : k0 = key
    · subst h0
      have hwd : w = d := by simpa [getFlightPlan] using hlook
      subst hwd
      simp only [setFlightPlan, if_pos rfl]
      by_cases hp : w.pilot = pid
      · have hvp : v.pilot = pid := by
          rw [hpid]
          exact hp
        simp [List.filter_cons, hp, hvp]
      · have hvp : ¬ v.pilot = pid := by
          rw [hpid]
          exact hp
        simp [List.filter_cons, hp, hvp]
    · simp only [getFlightPlan, if_neg h0] at hlook
      simp only [setFlightPlan, if_neg h0]
      by_cases hp : w.pilot = pid <;>
        simp [List.filter_cons, hp, ih hlook]

theorem processMatch_getFlightPlan_ne (pl : PilotOrPrefile) (key : String)
    (data : RedisFlightPlan) (now : Nat) (s : Store) (k : String) (hk : k ≠ key) :
    getFlightPlan (processMatch pl key data now s).2 k = getFlightPlan s k := by
  cases pl with
  | prefile q =>
    simp only [processMatch, PilotOrPrefile.flight_plan]
    by_cases hc : detectFlightPlanChanges data.flightPlan q.flight_plan = true
    · rw [if_pos hc]
      exact getFlightPlan_setFlightPlan_ne s key k _ hk
    · rw [if_neg hc]
  | pilot q =>
    simp only [processMatch, PilotOrPrefile.flight_plan]
    by_cases hc : detectFlightPlanChanges data.flightPlan q.flight_plan = true
    · rw [if_pos hc]
      cases hd : determineStateChange (some data.state) q data.previousAltitude with
      | some sc =>
        simp only [updateFlightPlanState]
        by_cases hv : isValidStateTransition data.state sc.newState = true
        · rw [if_pos hv]
          rw [getFlightPlan_setFlightPlan_ne _ key k _ hk]
          exact getFlightPlan_setFlightPlan_ne s key k _ hk
        · rw [if_neg hv]
          exact getFlightPlan_setFlightPlan_ne s key k _ hk
      | none =>
        rw [getFlightPlan_setFlightPlan_ne _ key k _ hk]
        exact getFlightPlan_setFlightPlan_ne s key k _ hk
    · rw [if_neg hc]
      cases hd : determineStateChange (some data.state) q data.previousAltitude with
      | some sc =>
        simp only [updateFlightPlanState]
        by_cases hv : isValidStateTransition data.state sc.newState = true
        · rw [if_pos hv]
          exact getFlightPlan_setFlightPlan_ne s key k _ hk
        · rw [if_neg hv]
      | none =>
        exact getFlightPlan_setFlightPlan_ne s key k _ hk

theorem processMatch_filter_pilot_length (pl : PilotOrPrefile) (key : String)
    (data : RedisFlightPlan) (now : Nat) (s : Store) (pid : PilotId)
    (hlook : getFlightPlan s key = some data) (hpid : data.pilot = pl.pilotId) :
    (((processMatch pl key data now s).2).filter
      fun kv => decide (kv.2.pilot = pid)).length =
      (s.filter fun kv => decide (kv.2.pilot = pid)).length := by
  cases pl with
  | prefile q =>
    simp only [processMatch, PilotOrPrefile.flight_plan]
    by_cases hc : detectFlightPlanChanges data.flightPlan q.flight_plan = true
    · rw [if_pos hc]
      exact setFlightPlan_filter_pilot_length s key _ data pid hlook hpid.symm
    · rw [if_neg hc]
  | pilot q =>
    simp only [processMatch, PilotOrPrefile.flight_plan]
    by_cases hc : detectFlightPlanChanges data.flightPlan q.flight_plan = true
    · rw [if_pos hc]
      have h1 := getFlightPlan_setFlightPlan_self s key
          { timestamp := now, pilot := PilotOrPrefile.pilotId (.pilot q),
            flightPlan := q.flight_plan, state := data.state,
            lastStateChange := data.lastStateChange,
            previousAltitude := data.previousAltitude }
      have hbase := setFlightPlan_filter_pilot_length s key
          { timestamp := now, pilot := PilotOrPrefile.pilotId (.pilot q),
            flightPlan := q.flight_plan, state := data.state,
            lastStateChange := data.lastStateChange,
            previousAltitude := data.previousAltitude } data pid hlook hpid.symm
      cases hd : determineStateChange (some data.state) q data.previousAltitude with
      | some sc =>
        simp only [updateFlightPlanState]
        by_cases hv : isValidStateTransition data.state sc.newState = true
        · rw [if_pos hv]
          rw [setFlightPlan_filter_pilot_length
              (setFlightPlan s key
                { timestamp := now, pilot := PilotOrPrefile.pilotId (.pilot q),
                  flightPlan := q.flight_plan, state := data.state,
                  lastStateChange := data.lastStateChange,
                  previousAltitude := data.previousAltitude }) key
              { data with state := sc.newState, lastStateChange := now, timestamp := now }
              _ pid h1 hpid]
          exact hbase
        · rw [if_neg hv]
          exact hbase
      | none =>
        rw [setFlightPlan_filter_pilot_length
            (setFlightPlan s key
              { timestamp := now, pilot := PilotOrPrefile.pilotId (.pilot q),
                flightPlan := q.flight_plan, state := data.state,
                lastStateChange := data.lastStateChange,
                previousAltitude := data.previousAltitude }) key
            { data with previousAltitude := some q.altitude, timestamp := now }
            _ pid h1 hpid]
        exact hbase
    · rw [if_neg hc]
      cases hd : determineStateChange (some data.state) q data.previousAltitude with
      | some sc =>
        simp only [updateFlightPlanState]
        by_cases hv : isValidStateTransition data.state sc.newState = true
        · rw [if_pos hv]
          exact setFlightPlan_filter_pilot_length s key
              { data with state := sc.newState, lastStateChange := now, timestamp := now }
              data pid hlook rfl
        · rw [if_neg hv]
      | none =>
        exact setFlightPlan_filter_pilot_length s key
            { data with previousAltitude := some q.altitude, timestamp := now }
            data pid hlook rfl

/-- Claim C1 (amended): under the no-collision hypotheses that every stored
record carrying the ingested identity lives under a key starting with its
baseKey, that every key starting with that baseKey carries that identity
(both can fail when a distinct identity's cid-callsign string extends this
one's, as the counterexample shows), and that at most one record carried the
identity before, at most one active record for the identity exists after any
ingest. The mechanism holds unconditionally: when no stored record matches
the incoming departure, every scanned key other than the new one is absent
afterwards and exactly one new record is created; when a match is found,
every other key's binding is left untouched. -/
theorem fp_C1_at_most_one_active_record :
    ∀ (pl : PilotOrPrefile) (now : Nat) (s : Store),
      ((∀ kv ∈ s, kv.2.pilot = pl.pilotId → strStartsWith (baseKeyOf pl) kv.1 = true) →
       (∀ kv ∈ s, strStartsWith (baseKeyOf pl) kv.1 = true → kv.2.pilot = pl.pilotId) →
       (s.filter fun kv => decide (kv.2.pilot = pl.pilotId)).length ≤ 1 →
       (((processRawFlightPlan pl now s).2).filter
         fun kv => decide (kv.2.pilot = pl.pilotId)).length ≤ 1) ∧
      (findMatch (findKeysByPattern (baseKeyOf pl) s) s pl.flight_plan.departure = none →
        (∀ k ∈ findKeysByPattern (baseKeyOf pl) s,
          k ≠ baseKeyOf pl ++ "-" ++ pl.flight_plan.departure →
          getFlightPlan (processRawFlightPlan pl now s).2 k = none) ∧
        getFlightPlan (processRawFlightPlan pl now s).2
            (baseKeyOf pl ++ "-" ++ pl.flight_plan.departure) =
          some { timestamp := now, pilot := pl.pilotId, flightPlan := pl.flight_plan,
                 state := .filed, lastStateChange := now,
                 previousAltitude := initialPreviousAltitude pl }) ∧
      (∀ key data,
        findMatch (findKeysByPattern (baseKeyOf pl) s) s pl.flight_plan.departure =
          some (key, data) →
        ∀ k, k ≠ key →
          getFlightPlan (processRawFlightPlan pl now s).2 k = getFlightPlan s k) := by
  intro pl now s
  refine ⟨?_, ?_, ?_⟩
  · intro H1 H2 H3
    cases hm : findMatch (findKeysByPattern (baseKeyOf pl) s) s pl.flight_plan.departure with
    | some kd =>
      obtain ⟨key, data⟩ := kd
      obtain ⟨hkmem, hlook, hdep⟩ := findMatch_eq_some _ s _ key data hm
      have hkv : (key, data) ∈ s := mem_of_getFlightPlan_eq_some s key data hlook
      have hpfx2 : strStartsWith (baseKeyOf pl) key = true :=
        ((mem_findKeysByPattern _ _ s).mp hkmem).2
      have hpid : data.pilot = pl.pilotId := H2 (key, data) hkv hpfx2
      have hred : processRawFlightPlan pl now s = processMatch pl key data now s := by
        simp only [processRawFlightPlan, hm]
      rw [congrArg Prod.snd hred,
        processMatch_filter_pilot_length pl key data now s pl.pilotId hlook hpid]
      exact H3
    | none =>
      have hred := processRawFlightPlan_no_match_eq pl now s hm
      have hnone : getFlightPlan
          (expireExisting (findKeysByPattern (baseKeyOf pl) s) now s).2
          (baseKeyOf pl ++ "-" ++ pl.flight_plan.departure) = none := by
        rw [expireExisting_snd, getFlightPlan_eq_none_iff]
        intro kv hkv
        have hkv2 := List.mem_filter.mp hkv
        intro hEq
        have hpfx2 : strStartsWith (baseKeyOf pl) kv.1 = true := by
          rw [hEq]
          exact strStartsWith_append2 _ _ _
        have hmemscan : kv.1 ∈ findKeysByPattern (baseKeyOf pl) s := by
          rw [mem_findKeysByPattern]
          exact ⟨List.mem_map_of_mem Prod.fst hkv2.1, hpfx2⟩
        have hnotin : kv.1 ∉ findKeysByPattern (baseKeyOf pl) s := by
          simpa using hkv2.2
        exact hnotin hmemscan
      have hsnd : (processRawFlightPlan pl now s).2 =
          setFlightPlan (expireExisting (findKeysByPattern (baseKeyOf pl) s) now s).2
            (baseKeyOf pl ++ "-" ++ pl.flight_plan.departure)
            { timestamp := now, pilot := pl.pilotId, flightPlan := pl.flight_plan,
              state := .filed, lastStateChange := now,
              previousAltitude := initialPreviousAltitude pl } :=
        congrArg Prod.snd hred
      have happend := setFlightPlan_of_getFlightPlan_none _ _
          { timestamp := now, pilot := pl.pilotId, flightPlan := pl.flight_plan,
            state := .filed, lastStateChange := now,
            previousAltitude := initialPreviousAltitude pl } hnone
      have hzero : ((expireExisting (findKeysByPattern (baseKeyOf pl) s) now s).2.filter
          fun kv => decide (kv.2.pilot = pl.pilotId)) = [] := by
        rw [expireExisting_snd, List.filter_eq_nil_iff]
        intro kv hkv
        have hkv2 := List.mem_filter.mp hkv
        have hnotin : kv.1 ∉ findKeysByPattern (baseKeyOf pl) s := by
          simpa using hkv2.2
        simp only [decide_eq_true_eq]
        intro hp
        have hpfx2 := H1 kv hkv2.1 hp
        have hmemscan : kv.1 ∈ findKeysByPattern (baseKeyOf pl) s := by
          rw [mem_findKeysByPattern]
          exact ⟨List.mem_map_of_mem Prod.fst hkv2.1, hpfx2⟩
        exact hnotin hmemscan
      rw [hsnd, happend, List.filter_append, hzero, List.nil_append, List.filter_cons]
      split <;> simp
  · intro hm
    have hred := processRawFlightPlan_no_match_eq pl now s hm
    have hsnd : (processRawFlightPlan pl now s).2 =
        setFlightPlan (expireExisting (findKeysByPattern (baseKeyOf pl) s) now s).2
          (baseKeyOf pl ++ "-" ++ pl.flight_plan.departure)
          { timestamp := now, pilot := pl.pilotId, flightPlan := pl.flight_plan,
            state := .filed, lastStateChange := now,
            previousAltitude := initialPreviousAltitude pl } :=
      congrArg Prod.snd hred
    constructor
    · intro k hkmem hkne
      rw [hsnd, getFlightPlan_setFlightPlan_ne _ _ _ _ hkne]
      exact getFlightPlan_expireExisting_of_mem _ now s k hkmem
    · rw [hsnd]
      exact getFlightPlan_setFlightPlan_self _ _ _
  · intro key data hm k hk
    have hred : processRawFlightPlan pl now s = processMatch pl key data now s := by
      simp only [processRawFlightPlan, hm]
    rw [congrArg Prod.snd hred]
    exact processMatch_getFlightPlan_ne pl key data now s k hk

/-- Witness for C1 at a concrete input: ingesting into the empty store, where
the no-collision hypotheses hold vacuously, leaves at most one record for
the identity. -/
theorem fp_C1_at_most_one_active_record_witness :
    (((processRawFlightPlan (.prefile samplePrefileEGKK) 10 []).2).filter
      fun kv =>
        decide (kv.2.pilot = PilotOrPrefile.pilotId (.prefile samplePrefileEGKK))).length ≤ 1 :=
  (fp_C1_at_most_one_active_record (.prefile samplePrefileEGKK) 10 []).1
    (by simp) (by simp) (by decide)
